import Mathlib

/-! Verification development for the Gemini relay bot (`src/bot.py`).

The file embeds, as pure Lean functions over `List Char`:
the chunking comprehension of line 125 (`[text[i:i+1990] for i in
range(0, len(text), 1990)]`, generalized over the chunk size), the
Discord `on_message` handler (lines 103-132) with its channel sends and
provider calls made explicit, the `/ask_gemini_web` Flask endpoint
(lines 62-74), and the startup configuration validation (lines 27-37).
The spec's per-key activation logic, absent from `src/bot.py`, is
modelled separately from the spec's words. -/

/-- Result of one call to the completion provider
(`gemini_model.generate_content`): a response carrying text, or a raised
exception carrying its message string. -/
inductive ProviderResult where
  | success (text : List Char)
  | failure (err : List Char)
deriving DecidableEq

/-- Python `range(start, stop, step)` for a nonzero `step`, as the list of
generated values; CPython produces `(stop - start - 1) // step + 1` values
when `start < stop` and `step > 0` (symmetrically for a negative step), and
no value otherwise. For the divisions that occur here both operands are
nonnegative, where Lean and Python division agree. -/
def pyRange (start stop step : Int) : List Int :=
  if 0 < step then
    if start < stop then
      (List.range (((stop - start - 1) / step).toNat + 1)).map
        (fun k : Nat => start + step * (k : Int))
    else []
  else if stop < start then
    (List.range (((start - stop - 1) / (-step)).toNat + 1)).map
      (fun k : Nat => start + step * (k : Int))
  else []

/-- Effective index of a Python slice bound `i` on a sequence of length
`len`: a negative bound counts from the end, and both directions clamp into
`[0, len]`. -/
def pySliceIndex (len : Nat) (i : Int) : Nat :=
  if i < 0 then ((len : Int) + i).toNat else min i.toNat len

/-- Python slice `t[i:j]`. -/
def pySlice (t : List Char) (i j : Int) : List Char :=
  (t.take (pySliceIndex t.length j)).drop (pySliceIndex t.length i)

/-- The chunking comprehension of `src/bot.py` line 125,
`[text[i:i+m] for i in range(0, len(text), m)]`, generalized over the
chunk size `m`; the code instantiates `m = 1990`. -/
def chunkSlices (t : List Char) (m : Int) : List (List Char) :=
  (pyRange 0 (t.length : Int) m).map (fun i => pySlice t i (i + m))

/-- The chunk splitter together with its error behavior: Python `range`
raises `ValueError` when its step is zero, so the comprehension fails for
`m = 0` before producing any chunk. -/
def pyChunks (t : List Char) (m : Int) : Except (List Char) (List (List Char)) :=
  if m = 0 then Except.error "range() arg 3 must not be zero".data
  else Except.ok (chunkSlices t m)

/-- Closed form of the chunking comprehension for a positive chunk size:
one window of `n` characters per index block, `ceil(len/n)` windows in all
(proved equal to `chunkSlices` below). -/
def chunksOf (t : List Char) (n : Nat) : List (List Char) :=
  (List.range (if t.length = 0 then 0 else (t.length - 1) / n + 1)).map
    (fun k => (t.drop (n * k)).take n)

/-- ASCII whitespace as stripped by Python `str.strip()`. -/
def isPySpace (c : Char) : Bool :=
  c = ' ' || c = '\t' || c = '\n' || c = '\r' || c = '\x0b' || c = '\x0c'

/-- Python `str.strip()`: whitespace removed from both ends. -/
def pyStrip (s : List Char) : List Char :=
  ((s.dropWhile isPySpace).reverse.dropWhile isPySpace).reverse

/-- The command marker `"!gemini "` that `on_message` checks for. -/
def cmdMarker : List Char := "!gemini ".data

/-- A single-quote character (kept out of the string literals). -/
def quoteCh : Char := '\''

/-- The usage reply sent for an empty question. -/
def usageReply : List Char := "Please provide a question after `!gemini`.".data

/-- The echo sent before the provider call, with the question quoted
verbatim between single quotes. -/
def thinkingEcho (q : List Char) : List Char :=
  "Thinking... (asking Gemini about: ".data ++ (quoteCh :: q) ++ (quoteCh :: ")".data)

/-- The notice sent before chunked delivery. -/
def partsNotice : List Char := "Response is too long. Sending in parts:".data

/-- Code-fence wrapping applied to each delivered chunk: three backticks
and a newline on each side, eight characters in all. -/
def fenced (c : List Char) : List Char := "```\n".data ++ c ++ "\n```".data

/-- Fixed head of the generic failure reply; the handler appends `str(e)`. -/
def apologyHead : List Char :=
  "Sorry, an error occurred while trying to get a response from Gemini: ".data

/-- What one `on_message` run did: the messages sent to the channel in
order, and the questions passed to `generate_content` in order. -/
structure BotOutput where
  sent : List (List Char)
  calls : List (List Char)
deriving DecidableEq

/-- The Discord `on_message` handler (`src/bot.py` lines 103-132).
`provider` gives the behavior of `gemini_model.generate_content` on this
turn; a Python exception raised by it is the `failure` case, which the
handler's `except` block turns into an apology message. -/
def on_message (selfId author : Nat) (content : List Char)
    (provider : List Char → ProviderResult) : BotOutput :=
  if author = selfId then ⟨[], []⟩
  else if cmdMarker.isPrefixOf content then
    let user_question := pyStrip (content.drop cmdMarker.length)
    if user_question = [] then ⟨[usageReply], []⟩
    else
      match provider user_question with
      | ProviderResult.success gemini_text =>
        if 2000 < gemini_text.length then
          ⟨thinkingEcho user_question :: partsNotice ::
              (chunkSlices gemini_text 1990).map fenced,
            [user_question]⟩
        else ⟨[thinkingEcho user_question, gemini_text], [user_question]⟩
      | ProviderResult.failure e =>
        ⟨[thinkingEcho user_question, apologyHead ++ e], [user_question]⟩
  else ⟨[], []⟩

/-- Reply of a Flask route: the JSON body (a response document or an error
document) together with the HTTP status code. -/
inductive WebReply where
  | resp (text : List Char)
  | err (msg : List Char)
deriving DecidableEq

/-- The `/ask_gemini_web` endpoint (`src/bot.py` lines 62-74). `question`
is `request.json.get('question')`; Python's truthiness test treats both a
missing key (`None`) and an empty string as no question. -/
def ask_gemini_web (question : Option (List Char))
    (provider : List Char → ProviderResult) : WebReply × Nat :=
  match question with
  | none => (WebReply.err "No question provided".data, 400)
  | some q =>
    if q = [] then (WebReply.err "No question provided".data, 400)
    else
      match provider q with
      | ProviderResult.success t => (WebReply.resp t, 200)
      | ProviderResult.failure e =>
        (WebReply.err ("An error occurred: ".data ++ e), 500)

/-- The startup validation (`src/bot.py` lines 27-37): each required
variable that is unset or empty prints a message naming it and exits the
process with status 1; with both present startup proceeds. -/
def validateConfig (geminiKey discordToken : Option (List Char)) :
    Except (List Char × Nat) Unit :=
  if geminiKey = none ∨ geminiKey = some [] then
    Except.error ("Error: GEMINI_API_KEY environment variable not set.".data, 1)
  else if discordToken = none ∨ discordToken = some [] then
    Except.error ("Error: DISCORD_BOT_TOKEN environment variable not set.".data, 1)
  else Except.ok ()

/-- Modelled from the spec: the active-key set update for the activation
toggle. `src/bot.py` has no activation command or active-key set (the spec
notes later variants drop the check entirely), so the toggle is taken from
the spec's words: toggling an already-active key on is a no-op success. -/
def activateKey (active : List Nat) (k : Nat) : List Nat :=
  if k ∈ active then active else k :: active

/-- Modelled from the spec: the activation command token. The spec fixes
only that commands are prefix-delimited tokens intercepted before the
completion path. -/
def toggleCmd : List Char := "!activate".data

/-- Modelled from the spec: `handle_inbound` with activation (spec section
4.1, steps 1-5), absent from `src/bot.py`. A command toggles the key
active and confirms in a single chunk; a non-command message in a shared
context from an inactive key is suppressed to the empty sequence;
otherwise the provider is called and its text split by the chunker, a
failure yielding a single generic-failure chunk. Returns the outbound
chunks and the updated active-key set. -/
def handle_inbound (active : List Nat) (k : Nat) (isShared : Bool)
    (text : List Char) (provider : List Char → ProviderResult)
    (maxLen : Nat) : List (List Char) × List Nat :=
  if toggleCmd.isPrefixOf text then
    (["Activation is now on.".data], activateKey active k)
  else if isShared ∧ k ∉ active then ([], active)
  else
    match provider text with
    | ProviderResult.success s => (chunksOf s maxLen, active)
    | ProviderResult.failure _ =>
      (["The request failed; please try again.".data], active)

/-! Helper lemmas about the chunker. -/

theorem take_min_length (l : List Char) (n : Nat) :
    l.take (min n l.length) = l.take n := by
  rcases Nat.le_total n l.length with h | h
  · rw [Nat.min_eq_left h]
  · rw [Nat.min_eq_right h, List.take_length, List.take_of_length_le h]

theorem pySlice_window (t : List Char) (a n : Nat) :
    pySlice t (a : Int) ((a : Int) + (n : Int)) = (t.drop a).take n := by
  have ha : ¬ ((a : Int) < 0) := by omega
  have hb : ¬ ((a : Int) + (n : Int) < 0) := by omega
  have h1 : ((a : Int)).toNat = a := rfl
  have h2 : ((a : Int) + (n : Int)).toNat = a + n := by omega
  simp only [pySlice, pySliceIndex, if_neg ha, if_neg hb, h1, h2]
  rw [List.drop_take]
  rcases Nat.le_total a t.length with h | h
  · rw [Nat.min_eq_left h]
    have hmin : min (a + n) t.length - a = min n (t.length - a) := by omega
    rw [hmin]
    have hlen : (t.drop a).length = t.length - a := List.length_drop a t
    rw [← hlen, take_min_length]
  · have hda : t.drop a = [] := List.drop_eq_nil_of_le h
    have hm1 : min a t.length = t.length := Nat.min_eq_right h
    have hm2 : min (a + n) t.length = t.length :=
      Nat.min_eq_right (Nat.le_trans h (Nat.le_add_right a n))
    rw [hm1, hm2, Nat.sub_self, hda]
    simp

theorem chunkSlices_eq_chunksOf (t : List Char) (n : Nat) (hn : 1 ≤ n) :
    chunkSlices t (n : Int) = chunksOf t n := by
  have hstep : (0 : Int) < (n : Int) := by exact_mod_cast hn
  unfold chunkSlices pyRange chunksOf
  rw [if_pos hstep]
  by_cases h0 : t.length = 0
  · rw [if_neg (by omega : ¬ ((0 : Int) < (t.length : Int))), if_pos h0]
    simp
  · have hL : 0 < t.length := Nat.pos_of_ne_zero h0
    rw [if_pos (by exact_mod_cast hL : (0 : Int) < (t.length : Int)), if_neg h0]
    have hcast : ((t.length : Int) - 0 - 1) = ((t.length - 1 : Nat) : Int) := by omega
    have hcount : (((t.length : Int) - 0 - 1) / (n : Int)).toNat + 1 =
        (t.length - 1) / n + 1 := by
      rw [hcast, ← Int.ofNat_ediv, Int.toNat_ofNat]
    rw [hcount, List.map_map]
    apply List.map_congr_left
    intro k _
    show pySlice t ((0 : Int) + (n : Int) * (k : Int))
        (((0 : Int) + (n : Int) * (k : Int)) + (n : Int)) = (t.drop (n * k)).take n
    have hk : ((0 : Int) + (n : Int) * (k : Int)) = ((n * k : Nat) : Int) := by
      push_cast
      ring
    rw [hk, pySlice_window]

theorem chunksOf_cons (t : List Char) (n : Nat) (ht : t ≠ []) (hn : 1 ≤ n) :
    chunksOf t n = t.take n :: chunksOf (t.drop n) n := by
  have hL : 0 < t.length := List.length_pos.mpr ht
  have hdl : (t.drop n).length = t.length - n := List.length_drop n t
  unfold chunksOf
  rw [if_neg (by omega : ¬ t.length = 0), List.range_succ_eq_map, List.map_cons,
    List.map_map, Nat.mul_zero, List.drop_zero]
  congr 1
  by_cases hle : t.length ≤ n
  · have h1 : (t.length - 1) / n = 0 := Nat.div_eq_of_lt (by omega)
    have h2 : (t.drop n).length = 0 := by omega
    rw [h1, if_pos h2]
    simp
  · have h2 : ¬ (t.drop n).length = 0 := by omega
    rw [if_neg h2]
    have hc : (t.length - 1) / n = ((t.drop n).length - 1) / n + 1 := by
      rw [hdl]
      have hsplit : t.length - 1 = (t.length - n - 1) + n := by omega
      rw [hsplit, Nat.add_div_right _ (by omega)]
    rw [hc]
    apply List.map_congr_left
    intro k _
    show (t.drop (n * Nat.succ k)).take n = ((t.drop n).drop (n * k)).take n
    rw [List.drop_drop]
    have hidx : n * Nat.succ k = n + n * k := by
      rw [Nat.mul_succ]
      omega
    rw [hidx]

theorem chunksOf_flatten_aux (n : Nat) (hn : 1 ≤ n) :
    ∀ (L : Nat) (t : List Char), t.length ≤ L → (chunksOf t n).flatten = t := by
  intro L
  induction L with
  | zero =>
    intro t ht
    have h : t = [] := List.eq_nil_of_length_eq_zero (Nat.le_zero.mp ht)
    subst h
    rfl
  | succ L ih =>
    intro t ht
    by_cases h : t = []
    · subst h
      rfl
    · rw [chunksOf_cons t n h hn, List.flatten_cons,
        ih (t.drop n) (by rw [List.length_drop]; omega)]
      exact List.take_append_drop n t

theorem chunksOf_flatten (t : List Char) (n : Nat) (hn : 1 ≤ n) :
    (chunksOf t n).flatten = t :=
  chunksOf_flatten_aux n hn t.length t (Nat.le_refl _)

theorem chunksOf_length_le (t : List Char) (n : Nat) (c : List Char)
    (hc : c ∈ chunksOf t n) : c.length ≤ n := by
  unfold chunksOf at hc
  simp only [List.mem_map] at hc
  obtain ⟨k, _, rfl⟩ := hc
  exact List.length_take_le n _

theorem chunksOf_ne_nil (t : List Char) (n : Nat) (ht : t ≠ []) :
    chunksOf t n ≠ [] := by
  have h0 : ¬ t.length = 0 := fun h => ht (List.eq_nil_of_length_eq_zero h)
  unfold chunksOf
  rw [if_neg h0, List.range_succ_eq_map]
  simp

/-! Helper lemmas about the handler. -/

theorem isPrefixOf_append_self (l r : List Char) : l.isPrefixOf (l ++ r) = true := by
  simp [List.isPrefixOf_iff_prefix]

theorem apology_not_echo (q : List Char) :
    apologyHead.isPrefixOf (thinkingEcho q) = false := rfl

theorem on_message_failure (selfId author : Nat) (rest e : List Char)
    (provider : List Char → ProviderResult) (ha : author ≠ selfId)
    (hq : pyStrip rest ≠ [])
    (hp : provider (pyStrip rest) = ProviderResult.failure e) :
    on_message selfId author (cmdMarker ++ rest) provider =
      ⟨[thinkingEcho (pyStrip rest), apologyHead ++ e], [pyStrip rest]⟩ := by
  simp [on_message, ha, hq, hp, isPrefixOf_append_self, List.drop_left]

theorem on_message_success (selfId author : Nat) (rest t : List Char)
    (provider : List Char → ProviderResult) (ha : author ≠ selfId)
    (hq : pyStrip rest ≠ [])
    (hp : provider (pyStrip rest) = ProviderResult.success t) :
    on_message selfId author (cmdMarker ++ rest) provider =
      if 2000 < t.length then
        ⟨thinkingEcho (pyStrip rest) :: partsNotice ::
            (chunkSlices t 1990).map fenced, [pyStrip rest]⟩
      else ⟨[thinkingEcho (pyStrip rest), t], [pyStrip rest]⟩ := by
  simp [on_message, ha, hq, hp, isPrefixOf_append_self, List.drop_left]

theorem mem_activateKey (active : List Nat) (k : Nat) : k ∈ activateKey active k := by
  by_cases h : k ∈ active
  · simp [activateKey, h]
  · simp [activateKey, h]

/-! Claim theorems. -/

/-- Claim C1: for every text and every positive chunk size the splitting
comprehension succeeds, its chunks concatenate back to the text, and every
chunk has length at most the chunk size, so the chunks are consecutive,
non-overlapping substrings in original order. -/
theorem C1_chunk_partition (t : List Char) (m : Int) (hm : 0 < m) :
    ∃ cs, pyChunks t m = Except.ok cs ∧ cs.flatten = t ∧
      ∀ c ∈ cs, (c.length : Int) ≤ m := by
  have hm0 : m ≠ 0 := by omega
  have hmn : m = ((m.toNat : Nat) : Int) := by omega
  have hn : 1 ≤ m.toNat := by omega
  refine ⟨chunkSlices t m, ?_, ?_, ?_⟩
  · simp [pyChunks, hm0]
  · rw [hmn, chunkSlices_eq_chunksOf t m.toNat hn]
    exact chunksOf_flatten t m.toNat hn
  · intro c hc
    rw [hmn] at hc
    rw [chunkSlices_eq_chunksOf t m.toNat hn] at hc
    have hcl := chunksOf_length_le t m.toNat c hc
    omega

/-- Witness for C1 at the spec's example input. -/
theorem C1_chunk_partition_witness :
    (0 : Int) < 2 ∧ ∃ cs, pyChunks "abcdef".data 2 = Except.ok cs ∧
      cs.flatten = "abcdef".data ∧ ∀ c ∈ cs, (c.length : Int) ≤ 2 :=
  ⟨by decide, C1_chunk_partition "abcdef".data 2 (by decide)⟩

/-- Claim C3: splitter edge and example behavior: the empty text yields no
chunks for every positive chunk size; "abcdef" at size 2 yields exactly
["ab", "cd", "ef"]; and a nonempty text shorter than the chunk size yields
exactly one chunk, the text itself (the empty text is the claim's stated
exception, covered by its first part). -/
theorem C3_chunk_examples :
    (∀ m : Int, 0 < m → pyChunks [] m = Except.ok []) ∧
    pyChunks "abcdef".data 2 =
      Except.ok ["ab".data, "cd".data, "ef".data] ∧
    (∀ (t : List Char) (m : Int), t ≠ [] → (t.length : Int) < m →
      pyChunks t m = Except.ok [t]) := by
  refine ⟨?_, rfl, ?_⟩
  · intro m hm
    have hm0 : m ≠ 0 := by omega
    simp [pyChunks, hm0, chunkSlices, pyRange]
  · intro t m ht hlt
    have hL : 0 < t.length := List.length_pos.mpr ht
    have hm0 : m ≠ 0 := by omega
    have hn : 1 ≤ m.toNat := by omega
    have hmn : m = ((m.toNat : Nat) : Int) := by omega
    have hchunks : chunkSlices t m = [t] := by
      rw [hmn, chunkSlices_eq_chunksOf t m.toNat hn,
        chunksOf_cons t m.toNat ht hn]
      have hdrop : t.drop m.toNat = [] := List.drop_eq_nil_of_le (by omega)
      have htake : t.take m.toNat = t := List.take_of_length_le (by omega)
      rw [hdrop, htake]
      rfl
    simp [pyChunks, hm0, hchunks]

/-- Witness for C3's quantified parts at concrete inputs. -/
theorem C3_chunk_examples_witness :
    pyChunks [] 5 = Except.ok [] ∧ pyChunks "ab".data 7 = Except.ok ["ab".data] :=
  ⟨C3_chunk_examples.1 5 (by decide),
    C3_chunk_examples.2.2 "ab".data 7 (by decide) (by decide)⟩

/-- Claim C4 counterexample: at chunk size -1, which is not positive, the
comprehension does not signal an error on the text "a": the index range is
empty, so the result is the empty chunk sequence. -/
theorem C4_negative_not_error :
    pyChunks "a".data (-1) = Except.ok [] ∧ (-1 : Int) < 0 :=
  ⟨rfl, by decide⟩

/-- Claim C4 amended: a zero chunk size is an error (Python `range` rejects
a zero step), but a negative chunk size is not an error: the range is empty
and the splitter returns the empty sequence for every text, silently
dropping it. -/
theorem C4_zero_error (t : List Char) (m : Int) :
    (m = 0 →
      pyChunks t m = Except.error "range() arg 3 must not be zero".data) ∧
    (m < 0 → pyChunks t m = Except.ok []) := by
  constructor
  · intro h
    simp [pyChunks, h]
  · intro h
    have hm0 : m ≠ 0 := by omega
    have h1 : ¬ (0 : Int) < m := by omega
    have h2 : ¬ ((t.length : Int) < 0) := by omega
    simp [pyChunks, hm0, chunkSlices, pyRange, h1, h2]

/-- Witness for C4's amended claim at concrete inputs. -/
theorem C4_zero_error_witness :
    pyChunks "a".data 0 = Except.error "range() arg 3 must not be zero".data ∧
    pyChunks "a".data (-2) = Except.ok [] :=
  ⟨(C4_zero_error "a".data 0).1 rfl, (C4_zero_error "a".data (-2)).2 (by decide)⟩

/-- Claim C2: a failing provider call is caught by the handler's blanket
`except`: the run completes normally (nothing raises past the handler) with
the pre-call echo plus exactly one message carrying the generic failure
line, and the only provider-derived content in that message is the
exception's string appended to the fixed apology text (the short
diagnostic). -/
theorem C2_provider_failure (selfId author : Nat) (rest e : List Char)
    (provider : List Char → ProviderResult) (ha : author ≠ selfId)
    (hq : pyStrip rest ≠ [])
    (hp : provider (pyStrip rest) = ProviderResult.failure e) :
    (on_message selfId author (cmdMarker ++ rest) provider).sent =
      [thinkingEcho (pyStrip rest), apologyHead ++ e] ∧
    ((on_message selfId author (cmdMarker ++ rest) provider).sent.countP
      (fun s => apologyHead.isPrefixOf s)) = 1 := by
  have h := on_message_failure selfId author rest e provider ha hq hp
  rw [h]
  refine ⟨rfl, ?_⟩
  simp [List.countP_cons, apology_not_echo, isPrefixOf_append_self]

/-- Witness for C2 at a concrete failing run. -/
theorem C2_provider_failure_witness :
    (on_message 0 1 (cmdMarker ++ "hi".data)
        (fun _ => ProviderResult.failure "boom".data)).sent =
      [thinkingEcho (pyStrip "hi".data), apologyHead ++ "boom".data] ∧
    ((on_message 0 1 (cmdMarker ++ "hi".data)
        (fun _ => ProviderResult.failure "boom".data)).sent.countP
      (fun s => apologyHead.isPrefixOf s)) = 1 :=
  C2_provider_failure 0 1 "hi".data "boom".data
    (fun _ => ProviderResult.failure "boom".data) (by decide) (by decide) rfl

/-- Claim C7: a command message whose text after "!gemini " strips to empty
short-circuits to the usage reply and never calls the provider (a message
from the bot itself sends nothing at all, see C10). -/
theorem C7_empty_question (selfId author : Nat) (rest : List Char)
    (provider : List Char → ProviderResult) (ha : author ≠ selfId)
    (hq : pyStrip rest = []) :
    on_message selfId author (cmdMarker ++ rest) provider =
      ⟨[usageReply], []⟩ := by
  simp [on_message, ha, hq, isPrefixOf_append_self, List.drop_left]

/-- Witness for C7 on a whitespace-only question. -/
theorem C7_empty_question_witness :
    pyStrip "   ".data = [] ∧
    on_message 0 1 (cmdMarker ++ "   ".data)
        (fun _ => ProviderResult.failure []) = ⟨[usageReply], []⟩ :=
  ⟨by decide, C7_empty_question 0 1 "   ".data
    (fun _ => ProviderResult.failure []) (by decide) (by decide)⟩

/-- Claim C10: a message from the bot itself, or one whose content does not
start with "!gemini ", produces no outbound send and no provider call. -/
theorem C10_ignored_messages (selfId author : Nat) (content : List Char)
    (provider : List Char → ProviderResult)
    (h : author = selfId ∨ cmdMarker.isPrefixOf content = false) :
    on_message selfId author content provider = ⟨[], []⟩ := by
  rcases h with h | h
  · simp [on_message, h]
  · by_cases ha : author = selfId
    · simp [on_message, ha]
    · simp [on_message, ha, h]

/-- Witness for C10: a self-authored command and an unprefixed message. -/
theorem C10_ignored_messages_witness :
    on_message 5 5 (cmdMarker ++ "hi".data)
        (fun _ => ProviderResult.success []) = ⟨[], []⟩ ∧
    on_message 5 1 "hello".data
        (fun _ => ProviderResult.success []) = ⟨[], []⟩ :=
  ⟨C10_ignored_messages 5 5 (cmdMarker ++ "hi".data)
      (fun _ => ProviderResult.success []) (Or.inl rfl),
    C10_ignored_messages 5 1 "hello".data
      (fun _ => ProviderResult.success []) (Or.inr (by decide))⟩

theorem dropWhile_false (p : Char → Bool) (l : List Char)
    (h : ∀ c ∈ l, p c = false) : l.dropWhile p = l := by
  induction l with
  | nil => rfl
  | cons a l ih =>
    rw [List.dropWhile_cons, h a (List.mem_cons_self a l)]
    simp

theorem pyStrip_no_space (l : List Char)
    (h : ∀ c ∈ l, isPySpace c = false) : pyStrip l = l := by
  unfold pyStrip
  rw [dropWhile_false isPySpace l h]
  rw [dropWhile_false isPySpace l.reverse (fun c hc => h c (List.mem_reverse.mp hc))]
  exact List.reverse_reverse l

set_option maxRecDepth 10000 in
/-- Claim C9 counterexample: the handler's first send echoes the question
verbatim, so a 1964-character question (inbound message 1972 characters,
itself within the transport limit) makes that first sent message 2001
characters long, over the 2000-character limit. -/
theorem C9_echo_exceeds_limit :
    2000 < ((on_message 0 1 (cmdMarker ++ List.replicate 1964 'a')
        (fun _ => ProviderResult.success "ok".data)).sent.headD []).length := by
  have hq : pyStrip (List.replicate 1964 'a') = List.replicate 1964 'a' :=
    pyStrip_no_space _ (fun c hc => by rw [List.eq_of_mem_replicate hc]; rfl)
  have hne : List.replicate 1964 'a' ≠ [] :=
    List.length_pos.mp (by simp)
  have h := on_message_success 0 1 (List.replicate 1964 'a') "ok".data
      (fun _ => ProviderResult.success "ok".data) (by decide)
      (by rw [hq]; exact hne) rfl
  rw [hq, if_neg (by decide : ¬ 2000 < ("ok".data).length)] at h
  rw [h]
  show 2000 < (thinkingEcho (List.replicate 1964 'a')).length
  have h34 : ("Thinking... (asking Gemini about: ".data).length = 34 := rfl
  have h1 : (")".data).length = 1 := rfl
  simp [thinkingEcho, List.length_append, h34, h1]

/-- Claim C9 amended: on the success path, every message the handler sends
after the initial echo fits the 2000-character transport limit: the
"sending in parts" notice has 39 characters, each code-fenced chunk has at
most 1990 + 8 = 1998 characters, and the single short-branch response is
sent only when its length is at most 2000. The initial echo quotes the
question verbatim (and the failure reply quotes the exception), so those
sends can exceed the limit, as the counterexample shows. -/
theorem C9_sent_bounds (selfId author : Nat) (rest t : List Char)
    (provider : List Char → ProviderResult) (ha : author ≠ selfId)
    (hq : pyStrip rest ≠ [])
    (hp : provider (pyStrip rest) = ProviderResult.success t) :
    (∀ s ∈ (on_message selfId author (cmdMarker ++ rest) provider).sent.drop 1,
      s.length ≤ 2000) ∧
    (∀ s ∈ (on_message selfId author (cmdMarker ++ rest) provider).sent.drop 2,
      s.length ≤ 1998) := by
  have h := on_message_success selfId author rest t provider ha hq hp
  have hcast : chunkSlices t (1990 : Int) = chunksOf t 1990 := by
    have h19 := chunkSlices_eq_chunksOf t 1990 (by omega)
    exact_mod_cast h19
  have hfen : ∀ s ∈ (chunkSlices t 1990).map fenced, s.length ≤ 1998 := by
    intro s hs
    obtain ⟨c, hc, rfl⟩ := List.mem_map.mp hs
    rw [hcast] at hc
    have hcl := chunksOf_length_le t 1990 c hc
    have h4a : ("```\n".data).length = 4 := rfl
    have h4b : ("\n```".data).length = 4 := rfl
    simp [fenced, List.length_append, h4a, h4b]
    omega
  by_cases hlong : 2000 < t.length
  · rw [if_pos hlong] at h
    rw [h]
    constructor
    · intro s hs
      simp only [List.drop_succ_cons, List.drop_zero] at hs
      rcases List.mem_cons.mp hs with hsn | hsm
      · subst hsn
        decide
      · exact Nat.le_trans (hfen s hsm) (by omega)
    · intro s hs
      simp only [List.drop_succ_cons, List.drop_zero] at hs
      exact hfen s hs
  · rw [if_neg hlong] at h
    rw [h]
    constructor
    · intro s hs
      simp only [List.drop_succ_cons, List.drop_zero] at hs
      rcases List.mem_cons.mp hs with hsn | hsm
      · subst hsn
        omega
      · simp at hsm
    · intro s hs
      simp only [List.drop_succ_cons, List.drop_zero] at hs
      simp at hs

/-- Witness for C9's amended bound at a concrete short run. -/
theorem C9_sent_bounds_witness :
    (∀ s ∈ (on_message 0 1 (cmdMarker ++ "hi".data)
        (fun _ => ProviderResult.success "ok".data)).sent.drop 1,
      s.length ≤ 2000) ∧
    (∀ s ∈ (on_message 0 1 (cmdMarker ++ "hi".data)
        (fun _ => ProviderResult.success "ok".data)).sent.drop 2,
      s.length ≤ 1998) :=
  C9_sent_bounds 0 1 "hi".data "ok".data
    (fun _ => ProviderResult.success "ok".data) (by decide) (by decide) rfl

/-- Claim C5 counterexample: a request with a missing question is answered
with HTTP status 400, not 200, refuting "status 200 always" for this
endpoint. -/
theorem C5_missing_question_400 :
    (ask_gemini_web none (fun q => ProviderResult.success q)).2 = 400 ∧
    (ask_gemini_web none (fun q => ProviderResult.success q)).2 ≠ 200 :=
  ⟨rfl, by decide⟩

/-- Claim C5 amended: the endpoint returns status 200 only on provider
success; a missing or empty question is answered 400 and a failing provider
call 500, in each case with the error described in the reply body. -/
theorem C5_status_mapping (question : Option (List Char))
    (provider : List Char → ProviderResult) :
    ((question = none ∨ question = some []) →
      ask_gemini_web question provider =
        (WebReply.err "No question provided".data, 400)) ∧
    (∀ q t, question = some q → q ≠ [] →
      provider q = ProviderResult.success t →
      ask_gemini_web question provider = (WebReply.resp t, 200)) ∧
    (∀ q e, question = some q → q ≠ [] →
      provider q = ProviderResult.failure e →
      ask_gemini_web question provider =
        (WebReply.err ("An error occurred: ".data ++ e), 500)) := by
  refine ⟨?_, ?_, ?_⟩
  · rintro (h | h) <;> subst h <;> simp [ask_gemini_web]
  · rintro q t rfl hq hp
    simp [ask_gemini_web, hq, hp]
  · rintro q e rfl hq hp
    simp [ask_gemini_web, hq, hp]

/-- Witness for C5's amended mapping at concrete requests. -/
theorem C5_status_mapping_witness :
    ask_gemini_web none (fun _ => ProviderResult.failure "x".data) =
      (WebReply.err "No question provided".data, 400) ∧
    ask_gemini_web (some "hi".data) (fun _ => ProviderResult.success "ok".data) =
      (WebReply.resp "ok".data, 200) ∧
    ask_gemini_web (some "hi".data) (fun _ => ProviderResult.failure "x".data) =
      (WebReply.err ("An error occurred: ".data ++ "x".data), 500) :=
  ⟨(C5_status_mapping none (fun _ => ProviderResult.failure "x".data)).1
      (Or.inl rfl),
    (C5_status_mapping (some "hi".data)
      (fun _ => ProviderResult.success "ok".data)).2.1 "hi".data "ok".data rfl
      (by decide) rfl,
    (C5_status_mapping (some "hi".data)
      (fun _ => ProviderResult.failure "x".data)).2.2 "hi".data "x".data rfl
      (by decide) rfl⟩

/-- Claim C6 (settled against the spec-modelled pipeline, since
`src/bot.py` lacks the activation feature): in a shared context, toggling
activation on an inactive key and then sending a non-command message
yields a non-empty reply (the provider returning nonempty text), while the
same message sent for the key while still un-activated yields the empty
outbound sequence. -/
theorem C6_activation_gate (active : List Nat) (k : Nat) (text s : List Char)
    (provider : List Char → ProviderResult) (maxLen : Nat)
    (hcmd : toggleCmd.isPrefixOf text = false) (hk : k ∉ active)
    (hp : provider text = ProviderResult.success s) (hs : s ≠ []) :
    (handle_inbound (activateKey active k) k true text provider maxLen).1 ≠ [] ∧
    (handle_inbound active k true text provider maxLen).1 = [] := by
  constructor
  · have hmem := mem_activateKey active k
    have hres :
        (handle_inbound (activateKey active k) k true text provider maxLen).1 =
          chunksOf s maxLen := by
      simp [handle_inbound, hcmd, hmem, hp]
    rw [hres]
    exact chunksOf_ne_nil s maxLen hs
  · simp [handle_inbound, hcmd, hk]

/-- Witness for C6 at a concrete key and message. -/
theorem C6_activation_gate_witness :
    (handle_inbound (activateKey [] 7) 7 true "hello".data
        (fun _ => ProviderResult.success "ok".data) 1990).1 ≠ [] ∧
    (handle_inbound [] 7 true "hello".data
        (fun _ => ProviderResult.success "ok".data) 1990).1 = [] :=
  C6_activation_gate [] 7 "hello".data "ok".data
    (fun _ => ProviderResult.success "ok".data) 1990 (by decide) (by decide)
    rfl (by decide)

/-- Claim C8: a missing (unset or empty) provider API key aborts startup
with exit status 1 after a message naming GEMINI_API_KEY; the key present
but the gateway token missing aborts with status 1 naming
DISCORD_BOT_TOKEN; with both present startup proceeds; 1 is non-zero; and
a provider error inside the message pipeline is not fatal: the handler
completes normally, converting it to a reply. -/
theorem C8_startup_validation (g d : Option (List Char)) :
    ((g = none ∨ g = some []) → validateConfig g d =
      Except.error
        ("Error: GEMINI_API_KEY environment variable not set.".data, 1)) ∧
    ((g ≠ none ∧ g ≠ some []) → (d = none ∨ d = some []) →
      validateConfig g d =
        Except.error
          ("Error: DISCORD_BOT_TOKEN environment variable not set.".data, 1)) ∧
    ((g ≠ none ∧ g ≠ some []) → (d ≠ none ∧ d ≠ some []) →
      validateConfig g d = Except.ok ()) ∧
    (1 : Nat) ≠ 0 ∧
    (∀ (selfId author : Nat) (rest e : List Char)
        (provider : List Char → ProviderResult), author ≠ selfId →
      pyStrip rest ≠ [] →
      provider (pyStrip rest) = ProviderResult.failure e →
      on_message selfId author (cmdMarker ++ rest) provider =
        ⟨[thinkingEcho (pyStrip rest), apologyHead ++ e], [pyStrip rest]⟩) := by
  refine ⟨?_, ?_, ?_, by decide, ?_⟩
  · intro h
    unfold validateConfig
    rw [if_pos h]
  · intro hg hd
    unfold validateConfig
    rw [if_neg (not_or.mpr hg), if_pos hd]
  · intro hg hd
    unfold validateConfig
    rw [if_neg (not_or.mpr hg), if_neg (not_or.mpr hd)]
  · intro selfId author rest e provider ha hq hp
    exact on_message_failure selfId author rest e provider ha hq hp

/-- Witness for C8 at concrete configurations and a failing pipeline run. -/
theorem C8_startup_validation_witness :
    validateConfig none (some "t".data) =
      Except.error
        ("Error: GEMINI_API_KEY environment variable not set.".data, 1) ∧
    validateConfig (some "k".data) none =
      Except.error
        ("Error: DISCORD_BOT_TOKEN environment variable not set.".data, 1) ∧
    validateConfig (some "k".data) (some "t".data) = Except.ok () ∧
    on_message 0 1 (cmdMarker ++ "q".data)
        (fun _ => ProviderResult.failure "E".data) =
      ⟨[thinkingEcho (pyStrip "q".data), apologyHead ++ "E".data],
        [pyStrip "q".data]⟩ :=
  ⟨(C8_startup_validation none (some "t".data)).1 (Or.inl rfl),
    (C8_startup_validation (some "k".data) none).2.1 (by decide) (Or.inl rfl),
    (C8_startup_validation (some "k".data) (some "t".data)).2.2.1 (by decide)
      (by decide),
    (C8_startup_validation none none).2.2.2.2 0 1 "q".data "E".data
      (fun _ => ProviderResult.failure "E".data) (by decide) (by decide) rfl⟩
